import Mathlib

/-!
Shallow embedding of the two specified subsystems of the
Admuad/shannon-crypto repository:

* the multi-source finding consensus engine (`ConsensusEngine` in the
  repository source), and
* the persistent multi-chain audit workspace store
  (`MultiChainWorkspaceManager` in
  `src/workspace/multi-chain-workspace-manager.cjs`).

The engine and the store are written in TypeScript-flavoured JavaScript.
The embedding mirrors the runtime (JavaScript) semantics of the source:

* JavaScript numbers that can become `NaN` along the modelled code paths
  are embedded as `JSNum` (`nan` or an exact rational); the claim-relevant
  arithmetic in the source only adds, multiplies and compares small
  decimals, where rational arithmetic agrees with IEEE doubles.
* JavaScript objects used as string-keyed maps are embedded as
  association lists in insertion order (property update keeps the
  position of an existing key, a new key is appended), matching object
  key-enumeration order.
* `undefined` values of an optional-shaped field are embedded as
  `Option.none`.
* `new Date()` observations are embedded as a strictly increasing
  logical clock threaded through the workspace-manager state: each
  observation returns the current tick and advances the clock.
-/

namespace Consensus

/-- Severity levels of a finding, `'critical' | 'high' | 'medium' | 'low'`. -/
inductive Severity
  | critical
  | high
  | medium
  | low
deriving DecidableEq, Repr, BEq

/-- Confidence tiers, `'high' | 'medium' | 'low'`. -/
inductive ConfTier
  | high
  | medium
  | low
deriving DecidableEq, Repr, BEq

instance : LawfulBEq Severity where
  eq_of_beq {a b} h := by
    cases a <;> cases b <;> first | rfl | exact absurd h (by decide)
  rfl {a} := by cases a <;> rfl

instance : LawfulBEq ConfTier where
  eq_of_beq {a b} h := by
    cases a <;> cases b <;> first | rfl | exact absurd h (by decide)
  rfl {a} := by cases a <;> rfl

/-- A JavaScript number along the modelled code paths: either `NaN`
(produced by arithmetic on `undefined`) or an exact rational. -/
inductive JSNum
  | nan
  | num (q : ℚ)
deriving DecidableEq, Repr

/-- Exact rational addition, written through `mkRat` so that it
evaluates by kernel reduction (`Rat.add` does not); `ratAdd_eq_add`
below proves it is the rational `+`. -/
def ratAdd (a b : ℚ) : ℚ :=
  mkRat (a.num * b.den + b.num * a.den) (a.den * b.den)

/-- Exact rational multiplication through `mkRat`; `ratMul_eq_mul`
below proves it is the rational `*`. -/
def ratMul (a b : ℚ) : ℚ :=
  mkRat (a.num * b.num) (a.den * b.den)

/-- JavaScript `+` on numbers: `NaN` is absorbing. -/
def jsAdd : JSNum → JSNum → JSNum
  | .num a, .num b => .num (ratAdd a b)
  | _, _ => .nan

/-- JavaScript `*` on numbers: `NaN` is absorbing. -/
def jsMul : JSNum → JSNum → JSNum
  | .num a, .num b => .num (ratMul a b)
  | _, _ => .nan

/-- `Math.min`: `NaN` if either argument is `NaN`. -/
def jsMin : JSNum → JSNum → JSNum
  | .num a, .num b => .num (min a b)
  | _, _ => .nan

/-- JavaScript `<` on numbers: any comparison with `NaN` is false. -/
def jsLt : JSNum → JSNum → Bool
  | .num a, .num b => decide (a < b)
  | _, _ => false

/-- `vuln.location`: `{ file, lineStart, lineEnd }`. -/
structure SrcLocation where
  file : String
  lineStart : Nat
  lineEnd : Nat
deriving DecidableEq, Repr

/-- The `Vulnerability` interface of the consensus-engine source.  The
`tools` object (string keys mapped to `true`) is embedded as the list of
its keys in insertion order.  `confidence` is an `Option` because the
merge path of `calculateConsensus` can leave the field `undefined` (the
uninitialised `let confidence` in the source).  Note the interface has a
`tools` field but no `tool` field. -/
structure Vulnerability where
  id : String
  title : String
  severity : Severity
  description : String
  location : SrcLocation
  tools : List String
  confidence : Option ConfTier
  confidenceScore : JSNum
  recommendation : String
deriving DecidableEq, Repr

/-- The `ToolResult` interface: one analyzer's output. -/
structure ToolResult where
  tool : String
  vulnerabilities : List Vulnerability
  confidence : ℚ
deriving DecidableEq, Repr

/-- The `consensus` stats object returned by `combineResults`. -/
structure ConsensusStats where
  total : Nat
  agreed : Nat
  conflicts : Nat
  overrides : Nat
deriving DecidableEq, Repr

/-- The `ConsensusResult` interface. -/
structure ConsensusResult where
  vulnerabilities : List Vulnerability
  consensus : ConsensusStats
  toolWeights : List (String × ℚ)
deriving DecidableEq, Repr

/-- `this.toolWeights`, set once in the `ConsensusEngine` constructor:
`{ slither: 0.40, mythril: 0.30, echidna: 0.20, medusa: 0.10, ai: 0.50 }`
(written through `mkRat` for kernel evaluation; `toolWeights_values`
below proves these are the source decimals). -/
def toolWeights : List (String × ℚ) :=
  [("slither", mkRat 2 5), ("mythril", mkRat 3 10), ("echidna", mkRat 1 5),
   ("medusa", mkRat 1 10), ("ai", mkRat 1 2)]

/-- `this.toolWeights[t]` as a JavaScript number: `undefined` (hence
`NaN` once it enters arithmetic) for a key that is absent. -/
def weightOf (t : String) : JSNum :=
  match toolWeights.lookup t with
  | some w => .num w
  | none => .nan

/-- The `severityMap = { critical: 3, high: 2, medium: 1, low: 0 }`. -/
def sevIndex : Severity → Nat
  | .critical => 3
  | .high => 2
  | .medium => 1
  | .low => 0

/-- The string form of a severity, as interpolated into the group key. -/
def sevName : Severity → String
  | .critical => "critical"
  | .high => "high"
  | .medium => "medium"
  | .low => "low"

/-- `Object.keys(severityMap).find(key => severityMap[key] === idx)`:
keys are enumerated in insertion order critical, high, medium, low. -/
def sevOfIndex (n : Nat) : Option Severity :=
  if sevIndex .critical = n then some .critical
  else if sevIndex .high = n then some .high
  else if sevIndex .medium = n then some .medium
  else if sevIndex .low = n then some .low
  else none

/-- The grouping key of `groupFindings`:
`` `${file}:${lineStart}-${severity}` ``. -/
def keyOf (v : Vulnerability) : String :=
  v.location.file ++ ":" ++ toString v.location.lineStart ++ "-" ++ sevName v.severity

/-- `groups.get(key)!.push(vulnWithTool)` on the insertion-ordered map:
append to the entry of the key when present, otherwise create it last. -/
def addToGroup : List (String × List Vulnerability) → String → Vulnerability →
    List (String × List Vulnerability)
  | [], k, v => [(k, [v])]
  | (k0, vs) :: rest, k, v =>
      if k0 = k then (k0, vs ++ [v]) :: rest else (k0, vs) :: addToGroup rest k v

/-- `ConsensusEngine.groupFindings`: group every vulnerability of every
tool result by its location/severity key.  Each grouped vulnerability
gets its `tools` object replaced by `{ [result.tool]: true }`. -/
def groupFindings (results : List ToolResult) : List (List Vulnerability) :=
  (results.foldl
      (fun gs r =>
        r.vulnerabilities.foldl
          (fun gs2 v => addToGroup gs2 (keyOf v) { v with tools := [r.tool] }) gs)
      []).map (fun g => g.2)

/-- `toolAgreements[tool]++` on the insertion-ordered counter object. -/
def bumpCount : List (String × Nat) → String → List (String × Nat)
  | [], t => [(t, 1)]
  | (t0, n) :: rest, t =>
      if t0 = t then (t0, n + 1) :: rest else (t0, n) :: bumpCount rest t

/-- The `toolAgreements` counter of `calculateConsensus`: for each group
member and each key of its `tools` object, bump that tool's count. -/
def toolAgreements (group : List Vulnerability) : List (String × Nat) :=
  group.foldl (fun acc v => v.tools.foldl bumpCount acc) []

/-- `agreedTools`: the tools whose agreement count is at least 2.
Because `groupFindings` tags every member with exactly one tool, a tool
reaches count 2 only when it contributed at least two findings at the
same key. -/
def agreedToolsOf (group : List Vulnerability) : List String :=
  ((toolAgreements group).filter (fun e => 2 ≤ e.2)).map (fun e => e.1)

/-- `Array.prototype.join(", ")`. -/
def joinSep : List String → String
  | [] => ""
  | [t] => t
  | t :: ts => t ++ ", " ++ joinSep ts

/-- `combinedTools[tool] = true` in sequence: object-key insertion,
keeping the position of an existing key. -/
def insertTool (l : List String) (t : String) : List String :=
  if l.contains t then l else l ++ [t]

/-- `ConsensusEngine.mergeFindings`.  Returns `none` only for the empty
group, where the source would return `group[0]`, i.e. `undefined`; the
caller only invokes it on groups of length at least 2. -/
def mergeFindings (group : List Vulnerability) (tools : List String) : Option Vulnerability :=
  match group with
  | [] => none
  | base :: _ =>
    let combinedTools := tools.foldl insertTool []
    let descriptions := (group.map (fun v => v.description)).filter (fun d => !(d == ""))
    let mergedDescription :=
      if 1 < descriptions.length then base.title ++ " - " ++ joinSep tools ++ " detected"
      else base.description
    let maxSeverityIndex := group.foldl (fun m v => max m (sevIndex v.severity)) 0
    let mergedSeverity := (sevOfIndex maxSeverityIndex).getD base.severity
    some { base with
      title := mergedDescription
      description := mergedDescription
      severity := mergedSeverity
      tools := combinedTools
      confidence := some .medium
      confidenceScore := tools.foldl (fun s t => jsAdd s (weightOf t)) (.num 0) }

/-- The record returned by `calculateConsensus`.  `finding` is an
`Option` because the source reads `group[0]` of a possibly empty group
(`undefined`), and because the merged finding is built from
`mergeFindings`. -/
structure CCResult where
  agreed : Bool
  conflict : Bool
  finding : Option Vulnerability
  findings : List Vulnerability
deriving DecidableEq, Repr

/-- `ConsensusEngine.calculateConsensus`.  For the merge branch the
source declares `let confidence: 'medium';` without an initialiser and
only assigns `'high'` when at least 3 tools reach agreement count 2, so
with exactly 2 agreed tools the merged finding's `confidence` is
`undefined` (`none`). -/
def calculateConsensus (group : List Vulnerability) : CCResult :=
  match group with
  | [] => { agreed := false, conflict := false, finding := none, findings := [] }
  | [g] => { agreed := false, conflict := false, finding := some g, findings := [g] }
  | g :: gs =>
    let grp := g :: gs
    let agreedTools := agreedToolsOf grp
    if 2 ≤ agreedTools.length then
      let confidenceScore := agreedTools.foldl (fun s t => jsAdd s (weightOf t)) (.num 0)
      let merged := mergeFindings grp agreedTools
      let confidence : Option ConfTier := if 3 ≤ agreedTools.length then some .high else none
      { agreed := true
        conflict := false
        finding := merged.map (fun m =>
          { m with confidence := confidence, confidenceScore := confidenceScore })
        findings := grp }
    else
      { agreed := false
        conflict := decide (1 < grp.length)
        finding := some g
        findings := grp }

/-- Stable insertion into a list sorted by descending weight, modelling
the comparator `([, a], [, b]) => b - a`. -/
def insertDesc (e : String × ℚ) : List (String × ℚ) → List (String × ℚ)
  | [] => [e]
  | f :: rest => if f.2 < e.2 then e :: f :: rest else f :: insertDesc e rest

/-- Stable descending sort by weight (`Object.entries(...).sort`). -/
def sortDesc : List (String × ℚ) → List (String × ℚ)
  | [] => []
  | e :: rest => insertDesc e (sortDesc rest)

/-- `Object.entries(this.toolWeights).sort(([,a],[,b]) => b - a)[0]?.[0] || 'ai'`:
the key of the globally highest-weighted tool. -/
def maxTool : String :=
  (((sortDesc toolWeights).head?).map (fun e => e.1)).getD "ai"

/-- `ConsensusEngine.resolveConflict`.  Selects the first finding tagged
with the globally highest-weighted tool; when none is tagged with it the
first finding of the group is returned unchanged.  Returns `none` only
for the empty list (`findings[0]` would be `undefined`). -/
def resolveConflict (findings : List Vulnerability) : Option Vulnerability :=
  match findings.find? (fun f => f.tools.contains maxTool) with
  | none => findings.head?
  | some trustedFinding =>
      some { trustedFinding with
        confidence := some .high
        confidenceScore := .num 100
        tools := insertTool trustedFinding.tools maxTool }

/-- `ConsensusEngine.combineResults`.  Two source-level subtleties are
embedded faithfully:

* the loop body declares `const consensus = this.calculateConsensus(group)`,
  shadowing the outer stats object, so every `consensus.agreed++`,
  `consensus.conflicts++`, `consensus.overrides++` and the in-loop
  `consensus.total++` mutate the discarded per-group record; the
  returned stats keep their initial zeros, with `total` assigned to the
  number of groups after the loop;
* the singleton branch computes `this.toolWeights[finding.tool] * 50`,
  but `Vulnerability` has no `tool` field, so the property key is
  `undefined` (stringified to `"undefined"`), the lookup yields
  `undefined` and the product is `NaN`. -/
def combineResults (results : List ToolResult) : ConsensusResult :=
  let findings := groupFindings results
  let processedVulns := findings.foldl
    (fun acc group =>
      let cons := calculateConsensus group
      if cons.agreed then
        acc ++ cons.finding.toList
      else if cons.conflict then
        acc ++ (resolveConflict cons.findings).toList
      else
        acc ++ (group.head?.map (fun f =>
          { f with confidence := some ConfTier.low
                   confidenceScore := jsMul (weightOf "undefined") (.num 50) })).toList)
    []
  { vulnerabilities := processedVulns
    consensus := { total := findings.length, agreed := 0, conflicts := 0, overrides := 0 }
    toolWeights := toolWeights }

/-- Whether `pat` is a prefix of `s` (over character lists). -/
def isPrefixList : List Char → List Char → Bool
  | [], _ => true
  | _ :: _, [] => false
  | a :: as, b :: bs => a == b && isPrefixList as bs

/-- Whether `pat` occurs as a contiguous sublist of `s`. -/
def hasSub : List Char → List Char → Bool
  | [], pat => pat.isEmpty
  | c :: rest, pat => isPrefixList pat (c :: rest) || hasSub rest pat

/-- JavaScript `String.prototype.includes`: substring occurrence test. -/
def jsIncludes (s pat : String) : Bool :=
  hasSub s.data pat.data

/-- `ConsensusEngine.isLikelyFalsePositive`: the four filter patterns. -/
def isLikelyFalsePositive (v : Vulnerability) : Bool :=
  (v.severity == Severity.low && v.confidence == some ConfTier.low)
  || (jsIncludes v.location.file ".t.sol" || jsIncludes v.location.file "test")
  || (jsIncludes v.description "variable" || jsIncludes v.description "storage slot")
  || (v.confidence == some ConfTier.low && v.tools.length == 1)

/-- `ConsensusEngine.adjustConfidence`: severity boost then multi-tool
boost, cumulative within one call. -/
def adjustConfidence (v : Vulnerability) : Vulnerability :=
  let step1 :=
    if v.severity == Severity.critical && jsLt v.confidenceScore (.num 80) then
      (some ConfTier.high, jsMin (jsAdd v.confidenceScore (.num 20)) (.num 100))
    else if v.severity == Severity.high && jsLt v.confidenceScore (.num 70) then
      ((if v.confidence == some ConfTier.low then some ConfTier.medium else v.confidence),
       jsMin (jsAdd v.confidenceScore (.num 10)) (.num 100))
    else
      (v.confidence, v.confidenceScore)
  let step2 :=
    if 2 ≤ v.tools.length then
      ((if step1.1 == some ConfTier.low then some ConfTier.medium
        else if step1.1 == some ConfTier.medium then some ConfTier.high
        else step1.1),
       jsMin (jsAdd step1.2 (.num 15)) (.num 100))
    else
      step1
  { v with confidence := step2.1, confidenceScore := step2.2 }

/-- `ConsensusEngine.reduceFalsePositives`: drop likely false positives,
adjust the confidence of the survivors. -/
def reduceFalsePositives (vulns : List Vulnerability) : List Vulnerability :=
  vulns.foldl
    (fun filtered v =>
      if isLikelyFalsePositive v then filtered else filtered ++ [adjustConfidence v])
    []

end Consensus

namespace Workspace

/-- Association-list read, `obj[key]` on a string-keyed object. -/
def getA : List (String × α) → String → Option α
  | [], _ => none
  | e :: rest, k => if e.1 = k then some e.2 else getA rest k

/-- Association-list write, `obj[key] = v`: update in place when the key
exists, append the new key otherwise (object insertion order). -/
def setA : List (String × α) → String → α → List (String × α)
  | [], k, v => [(k, v)]
  | (k0, v0) :: rest, k, v =>
      if k0 = k then (k0, v) :: rest else (k0, v0) :: setA rest k v

/-- One entry of `workspace.chains`: `{ contracts, vulnerabilities,
reports, config }`.  Vulnerabilities and the `config` payload carry no
structure the store inspects; both are embedded as strings (`config` is
always the empty object and is omitted). -/
structure ChainState where
  contracts : List String
  vulnerabilities : List String
  reports : List String
deriving DecidableEq, Repr

/-- The fresh per-chain bucket created by `createWorkspace`. -/
def emptyChainState : ChainState :=
  { contracts := [], vulnerabilities := [], reports := [] }

/-- The record stored at `workspace.contracts[address][chain]`:
`{ address, chain, addedAt: new Date(), ...contractData }`.  The spread
metadata is embedded as an opaque `data` payload. -/
structure ContractRecord where
  address : String
  chain : String
  addedAt : Nat
  data : String
deriving DecidableEq, Repr

/-- The persisted `ChainWorkspace` document.  `Date` values are embedded
as logical-clock ticks. -/
structure ChainWorkspace where
  workspaceId : String
  chains : List (String × ChainState)
  contracts : List (String × List (String × ContractRecord))
  vulnerabilities : List (String × List String)
  reports : List (String × String)
  createdAt : Nat
  updatedAt : Nat
deriving DecidableEq, Repr

/-- `DEFAULT_CONFIG.supportedChains`. -/
def supportedChains : List String :=
  ["ethereum", "bnb", "polygon", "arbitrum", "optimism", "avalanche"]

/-- The observable state of a `MultiChainWorkspaceManager`: the
`workspace.json` documents on disk, the in-memory `this.workspaces` map,
and the logical clock supplying `new Date()` ticks. -/
structure ManagerState where
  disk : List (String × ChainWorkspace)
  mem : List (String × ChainWorkspace)
  clock : Nat
deriving DecidableEq, Repr

/-- The empty manager state (no workspaces on disk, fresh process). -/
def initState : ManagerState :=
  { disk := [], mem := [], clock := 0 }

/-- `MultiChainWorkspaceManager.saveWorkspace`: serialize and write the
document as it currently stands, and only afterwards stamp
`workspace.updatedAt = new Date()` and store the stamped object in
`this.workspaces`.  Returns the new state together with the stamped
workspace object (the caller holds the same mutated object). -/
def saveWorkspace (s : ManagerState) (workspaceId : String) (ws : ChainWorkspace) :
    ManagerState × ChainWorkspace :=
  let disk := setA s.disk workspaceId ws
  let ws := { ws with updatedAt := s.clock }
  ({ disk := disk, mem := setA s.mem workspaceId ws, clock := s.clock + 1 }, ws)

/-- `MultiChainWorkspaceManager.loadWorkspace`: the in-memory map wins;
otherwise fall back to the document on disk, caching it in memory.
Returns `none` when the id is unknown to both. -/
def loadWorkspace (s : ManagerState) (workspaceId : String) :
    Option ChainWorkspace × ManagerState :=
  match getA s.mem workspaceId with
  | some ws => (some ws, s)
  | none =>
    match getA s.disk workspaceId with
    | some ws => (some ws, { s with mem := setA s.mem workspaceId ws })
    | none => (none, s)

/-- `MultiChainWorkspaceManager.createWorkspace`.  There is no existence
check: the function unconditionally builds a fresh empty document
(chains initialised for every supported chain, not only the requested
ones, which only govern subdirectory creation) and saves it, overwriting
any state previously stored at the id.  `createdAt` and `updatedAt` are
two successive `new Date()` observations. -/
def createWorkspace (s : ManagerState) (workspaceId : String) (chains : List String) :
    ManagerState × ChainWorkspace :=
  let ws : ChainWorkspace :=
    { workspaceId := workspaceId
      chains := supportedChains.map (fun c => (c, emptyChainState))
      contracts := []
      vulnerabilities := []
      reports := []
      createdAt := s.clock
      updatedAt := s.clock + 1 }
  let s := { s with clock := s.clock + 2 }
  saveWorkspace s workspaceId ws

/-- `NotFound` signalling of the mutating operations
(`throw new Error("Workspace not found: ...")`). -/
inductive WsError
  | notFound (workspaceId : String)
deriving DecidableEq, Repr

/-- `MultiChainWorkspaceManager.addContract`: overwrite the metadata
record at `contracts[address][chain]` (stamping `addedAt`), push the
address onto the chain's contract list only when the chain bucket
exists, then save. -/
def addContract (s : ManagerState) (workspaceId address chain : String) (data : String) :
    Except WsError ManagerState :=
  match loadWorkspace s workspaceId with
  | (none, _) => .error (.notFound workspaceId)
  | (some ws, s) =>
    let record : ContractRecord :=
      { address := address, chain := chain, addedAt := s.clock, data := data }
    let s := { s with clock := s.clock + 1 }
    let inner := (getA ws.contracts address).getD []
    let contracts := setA ws.contracts address (setA inner chain record)
    let chains :=
      match getA ws.chains chain with
      | some cs => setA ws.chains chain { cs with contracts := cs.contracts ++ [address] }
      | none => ws.chains
    .ok (saveWorkspace s workspaceId { ws with contracts := contracts, chains := chains }).1

/-- `MultiChainWorkspaceManager.addVulnerabilities`: replace the list at
the per-contract key `"address:chain"` (the source initialises a missing
key to `[]` and then assigns over it), append the same items to the
chain-level aggregate when the chain bucket exists, then save. -/
def addVulnerabilities (s : ManagerState) (workspaceId address chain : String)
    (vulnerabilities : List String) : Except WsError ManagerState :=
  match loadWorkspace s workspaceId with
  | (none, _) => .error (.notFound workspaceId)
  | (some ws, s) =>
    let key := address ++ ":" ++ chain
    let vulns := setA ws.vulnerabilities key vulnerabilities
    let chains :=
      match getA ws.chains chain with
      | some cs =>
          setA ws.chains chain
            { cs with vulnerabilities := cs.vulnerabilities ++ vulnerabilities }
      | none => ws.chains
    .ok (saveWorkspace s workspaceId { ws with vulnerabilities := vulns, chains := chains }).1

/-- `MultiChainWorkspaceManager.addReport`: store the report text at
`"address:chain"`, push the key onto the chain's report list when the
chain bucket exists, then save.  The side write of the report body to a
per-chain file follows the document save and never touches the
document; it is not part of the modelled state. -/
def addReport (s : ManagerState) (workspaceId address chain : String) (report : String) :
    Except WsError ManagerState :=
  match loadWorkspace s workspaceId with
  | (none, _) => .error (.notFound workspaceId)
  | (some ws, s) =>
    let key := address ++ ":" ++ chain
    let reports := setA ws.reports key report
    let chains :=
      match getA ws.chains chain with
      | some cs => setA ws.chains chain { cs with reports := cs.reports ++ [key] }
      | none => ws.chains
    .ok (saveWorkspace s workspaceId { ws with reports := reports, chains := chains }).1

/-- The record returned by `getWorkspaceStats`. -/
structure WorkspaceStats where
  chains : Nat
  contracts : Nat
  vulnerabilities : Nat
  reports : Nat
  createdAt : Nat
  updatedAt : Nat
deriving DecidableEq, Repr

/-- `MultiChainWorkspaceManager.getWorkspaceStats` (the spec's
`getStats`): reads only the in-memory map, returns `null` (`none`) for
an unknown id, and sums the lengths of the current per-contract
vulnerability lists — not the chain-level aggregates.  The spec's
`totalVulnerabilities` is the `vulnerabilities` field here, named as in
the source. -/
def getWorkspaceStats (s : ManagerState) (workspaceId : String) : Option WorkspaceStats :=
  (getA s.mem workspaceId).map (fun ws =>
    { chains := ws.chains.length
      contracts := ws.contracts.length
      vulnerabilities := ws.vulnerabilities.foldl (fun sum kv => sum + kv.2.length) 0
      reports := ws.reports.length
      createdAt := ws.createdAt
      updatedAt := ws.updatedAt })

end Workspace

namespace Fixtures

open Consensus Workspace

/-- A raw critical finding at `(Bank.sol, 10)`, as one analyzer reports it. -/
def bankFinding : Vulnerability :=
  { id := "VULN-1"
    title := "Reentrancy"
    severity := .critical
    description := "state update after external call"
    location := { file := "Bank.sol", lineStart := 10, lineEnd := 12 }
    tools := []
    confidence := some .high
    confidenceScore := .num 10
    recommendation := "apply checks-effects-interactions" }

/-- The same issue as reported by a second analyzer. -/
def bankFindingAlt : Vulnerability :=
  { bankFinding with id := "VULN-2", description := "reentrant withdraw" }

/-- The spec scenario of claim C1: slither and mythril each report once
at `(Bank.sol, 10, critical)`, echidna reports nothing. -/
def twoSourceInput : List ToolResult :=
  [ { tool := "slither", vulnerabilities := [bankFinding], confidence := 1 },
    { tool := "mythril", vulnerabilities := [bankFindingAlt], confidence := 1 },
    { tool := "echidna", vulnerabilities := [], confidence := 1 } ]

/-- `bankFinding` with a low raw confidence tier. -/
def lowConfFinding : Vulnerability :=
  { bankFinding with confidence := some .low, confidenceScore := .num 5 }

/-- Three distinct sources, one finding each, at the same identity key. -/
def threeSourceInput : List ToolResult :=
  [ { tool := "slither", vulnerabilities := [lowConfFinding], confidence := 1 },
    { tool := "mythril", vulnerabilities := [lowConfFinding], confidence := 1 },
    { tool := "echidna", vulnerabilities := [lowConfFinding], confidence := 1 } ]

/-- A single source reporting a single finding. -/
def singletonInput : List ToolResult :=
  [ { tool := "slither", vulnerabilities := [bankFinding], confidence := 1 } ]

/-- A copy of `bankFinding` relocated to file `f`, line `n`. -/
def vulnAt (f : String) (n : Nat) : Vulnerability :=
  { bankFinding with location := { file := f, lineStart := n, lineEnd := n } }

/-- An input exercising all three resolution paths: the `A.sol` group
gets two findings from each of two tools (the only way the source's
per-tool counters reach agreement), the `B.sol` group is a two-source
conflict, the `C.sol` group is a singleton. -/
def mixedInput : List ToolResult :=
  [ { tool := "slither"
      vulnerabilities := [vulnAt "A.sol" 1, vulnAt "A.sol" 1, vulnAt "B.sol" 2, vulnAt "C.sol" 3]
      confidence := 1 },
    { tool := "mythril"
      vulnerabilities := [vulnAt "A.sol" 1, vulnAt "A.sol" 1, vulnAt "B.sol" 2]
      confidence := 1 } ]

/-- Conflict group without the `ai` tool: slither and mythril disagree. -/
def conflictInput : List ToolResult :=
  [ { tool := "slither", vulnerabilities := [lowConfFinding], confidence := 1 },
    { tool := "mythril", vulnerabilities := [lowConfFinding], confidence := 1 } ]

/-- A workspace manager state holding the freshly created `w1`. -/
def wsCreated : ManagerState :=
  (createWorkspace initState "w1" ["ethereum"]).1

/-- The C6 scenario start: `createWorkspace("w1", ["ethereum","bnb"])`. -/
def c6Start : ManagerState :=
  (createWorkspace initState "w1" ["ethereum", "bnb"]).1

/-- A grouped finding tagged by slither only, as a member of a conflict
group. -/
def conflictMember : Vulnerability :=
  { lowConfFinding with tools := ["slither"] }

/-- The workspace document held in memory right after
`createWorkspace(initState, "w1", ["ethereum","bnb"])`: fresh and empty,
with `createdAt = 0` and the post-save stamp `updatedAt = 2`. -/
def c6LoadedWs : ChainWorkspace :=
  { workspaceId := "w1"
    chains := supportedChains.map (fun c => (c, emptyChainState))
    contracts := []
    vulnerabilities := []
    reports := []
    createdAt := 0
    updatedAt := 2 }

/-- A critical consensus finding with a mid-range score: passes the
false-positive filter and is re-boosted by every adjustment pass. -/
def boostable : Vulnerability :=
  { id := "1"
    title := "t"
    severity := .critical
    description := "reentrancy"
    location := { file := "a.sol", lineStart := 1, lineEnd := 2 }
    tools := ["slither"]
    confidence := some .medium
    confidenceScore := .num 20
    recommendation := "r" }

end Fixtures

open Consensus Workspace Fixtures

/-- Sanity: `ratAdd` is exact rational addition. -/
theorem ratAdd_eq_add (a b : ℚ) : ratAdd a b = a + b := by
  have ha : (a.den : ℚ) ≠ 0 := by exact_mod_cast a.den_nz
  have hb : (b.den : ℚ) ≠ 0 := by exact_mod_cast b.den_nz
  rw [ratAdd, Rat.mkRat_eq_div]
  push_cast
  conv_rhs => rw [← Rat.num_div_den a, ← Rat.num_div_den b]
  rw [div_add_div _ _ ha hb]
  ring

/-- Sanity: `ratMul` is exact rational multiplication. -/
theorem ratMul_eq_mul (a b : ℚ) : ratMul a b = a * b := by
  have ha : (a.den : ℚ) ≠ 0 := by exact_mod_cast a.den_nz
  have hb : (b.den : ℚ) ≠ 0 := by exact_mod_cast b.den_nz
  rw [ratMul, Rat.mkRat_eq_div]
  push_cast
  conv_rhs => rw [← Rat.num_div_den a, ← Rat.num_div_den b]
  rw [div_mul_div_comm]

/-- Sanity: the embedded tool weights are the source's decimals
`0.40, 0.30, 0.20, 0.10, 0.50`. -/
theorem toolWeights_values :
    toolWeights =
      [("slither", (2 : ℚ)/5), ("mythril", (3 : ℚ)/10), ("echidna", (1 : ℚ)/5),
       ("medusa", (1 : ℚ)/10), ("ai", (1 : ℚ)/2)] := by
  norm_num [toolWeights, Rat.mkRat_eq_div]

namespace Workspace

theorem getA_setA_self (l : List (String × α)) (k : String) (v : α) :
    getA (setA l k v) k = some v := by
  induction l with
  | nil => simp [getA, setA]
  | cons e rest ih =>
    by_cases h : e.1 = k
    · simp [getA, setA, h]
    · simp [getA, setA, h, ih]

theorem getA_setA_ne (l : List (String × α)) (k k' : String) (v : α) (h : k ≠ k') :
    getA (setA l k v) k' = getA l k' := by
  induction l with
  | nil => simp [getA, setA, h]
  | cons e rest ih =>
    by_cases he : e.1 = k
    · subst he
      simp [getA, setA, fun hh : e.1 = k' => h hh]
    · simp [getA, setA, he, ih]

end Workspace

/-- C1.  On the spec scenario (slither and mythril each report once at
`(Bank.sol, 10, critical)`, echidna empty) `combineResults` does NOT
produce the claimed consensus hit: the group is routed through the
conflict fallback and the slither finding is returned unchanged, so the
single output finding keeps its raw confidence tier (`high`, not
`medium`) and carries `contributingTools = ["slither"]` only, while the
stats stay `{total := 1, agreed := 0, conflicts := 0, overrides := 0}`.
This contradicts the claim because `calculateConsensus` counts findings
per tool — a tool only "agrees" after reporting twice at the key. -/
theorem c1_two_source_scenario_routed_to_conflict :
    combineResults twoSourceInput =
      { vulnerabilities := [{ bankFinding with tools := ["slither"] }]
        consensus := { total := 1, agreed := 0, conflicts := 0, overrides := 0 }
        toolWeights := toolWeights } := by
  decide

/-- C2.  Three distinct sources reporting the same identity key once
each do NOT yield `confidenceTier = high`: the per-tool agreement
counters all stay at 1, the group is a conflict, and the first finding
is returned with its raw `low` tier and only slither contributing. -/
theorem c2_three_distinct_sources_not_high :
    (combineResults threeSourceInput).vulnerabilities.map
        (fun v => (v.confidence, v.tools)) =
      [(some ConfTier.low, ["slither"])] := by
  decide

/-- C3.  A singleton group gets `confidenceTier = low` as claimed, but
its `confidenceScore` is `NaN`, not `weight(slither) * 50 = 20`: the
source reads `finding.tool`, a field `Vulnerability` does not have, so
the weight lookup yields `undefined` and the product is `NaN`. -/
theorem c3_singleton_score_is_nan :
    (combineResults singletonInput).vulnerabilities.map
        (fun v => (v.confidence, v.confidenceScore)) =
      [(some ConfTier.low, JSNum.nan)] := by
  decide

/-- C5.  The stats returned by `combineResults` never count resolution
paths: the loop increments a block-scoped `consensus` object shadowing
the stats, so for every input the returned stats are
`{total := number of groups, agreed := 0, conflicts := 0, overrides := 0}`.
In particular on `mixedInput` — one agreed group, one conflict group,
one singleton group, where the claim requires
`{total := 3, agreed := 1, conflicts := 1, overrides := 1}` — the code
returns all-zero counters. -/
theorem c5_stats_counters_always_zero :
    (∀ results : List ToolResult,
        (combineResults results).consensus =
          { total := (groupFindings results).length
            agreed := 0, conflicts := 0, overrides := 0 })
    ∧ (combineResults mixedInput).consensus =
        { total := 3, agreed := 0, conflicts := 0, overrides := 0 } := by
  exact ⟨fun results => rfl, by decide⟩

/-- C6.  `addVulnerabilities` replaces the per-contract list at the key
`"address:chain"` while appending the same items to the chain-level
aggregate, and `getWorkspaceStats` sums only the current per-contract
list lengths; on the spec scenario (create `w1`, add `[v1,v2]`, then
`[v3]`, both for `(0xAA, ethereum)`) the stats report 1 vulnerability
while the ethereum chain aggregate holds `[v1, v2, v3]` and the
per-contract list holds `[v3]`. -/
theorem c6_addVulnerabilities_replaces_and_appends :
    (∀ (s : ManagerState) (wid addr chain : String) (vulns : List String)
        (ws : ChainWorkspace) (cs : ChainState) (s1 : ManagerState),
      loadWorkspace s wid = (some ws, s1) →
      getA ws.chains chain = some cs →
      ∃ s2, addVulnerabilities s wid addr chain vulns = .ok s2 ∧
        ∃ ws2, getA s2.mem wid = some ws2 ∧
          getA ws2.vulnerabilities (addr ++ ":" ++ chain) = some vulns ∧
          getA ws2.chains chain =
            some { cs with vulnerabilities := cs.vulnerabilities ++ vulns } ∧
          getWorkspaceStats s2 wid = some
            { chains := ws2.chains.length
              contracts := ws2.contracts.length
              vulnerabilities := ws2.vulnerabilities.foldl (fun n kv => n + kv.2.length) 0
              reports := ws2.reports.length
              createdAt := ws2.createdAt
              updatedAt := ws2.updatedAt })
    ∧ ((addVulnerabilities c6Start "w1" "0xAA" "ethereum" ["v1", "v2"]).toOption.bind
          (fun s2 => (addVulnerabilities s2 "w1" "0xAA" "ethereum" ["v3"]).toOption)).map
        (fun s3 =>
          ((getWorkspaceStats s3 "w1").map (fun st => st.vulnerabilities),
           (getA s3.mem "w1").bind (fun ws => getA ws.vulnerabilities "0xAA:ethereum"),
           (getA s3.mem "w1").bind
             (fun ws => (getA ws.chains "ethereum").map (fun c => c.vulnerabilities))))
      = some (some 1, some ["v3"], some ["v1", "v2", "v3"]) := by
  constructor
  · intro s wid addr chain vulns ws cs s1 h1 h2
    refine ⟨_, by simp only [addVulnerabilities, h1, h2]; rfl, ?_⟩
    refine ⟨_, getA_setA_self _ _ _, ?_, ?_, ?_⟩
    · exact getA_setA_self _ _ _
    · exact getA_setA_self _ _ _
    · simp only [getWorkspaceStats, saveWorkspace, getA_setA_self, Option.map_some]
      rfl
  · decide

/-- C6 witness: the general part of the theorem evaluated on the
concrete state `c6Start` with chain `bnb`. -/
theorem c6_addVulnerabilities_replaces_and_appends_witness :
    ∃ s2, addVulnerabilities c6Start "w1" "0xAA" "bnb" ["x"] = .ok s2 ∧
      ∃ ws2, getA s2.mem "w1" = some ws2 ∧
        getA ws2.vulnerabilities ("0xAA" ++ ":" ++ "bnb") = some ["x"] ∧
        getA ws2.chains "bnb" =
          some { emptyChainState with
                   vulnerabilities := emptyChainState.vulnerabilities ++ ["x"] } ∧
        getWorkspaceStats s2 "w1" = some
          { chains := ws2.chains.length
            contracts := ws2.contracts.length
            vulnerabilities := ws2.vulnerabilities.foldl (fun n kv => n + kv.2.length) 0
            reports := ws2.reports.length
            createdAt := ws2.createdAt
            updatedAt := ws2.updatedAt } :=
  c6_addVulnerabilities_replaces_and_appends.1 c6Start "w1" "0xAA" "bnb" ["x"]
    c6LoadedWs emptyChainState c6Start (by decide) (by decide)

/-- C9.  For a chain with no bucket in the workspace's chains map,
`addContract` and `addVulnerabilities` succeed without raising, still
record the per-contract data (the contract metadata record, the
per-`(address, chain)` vulnerability list), and leave the whole chains
map — hence every chain-level contracts/vulnerabilities/reports list —
unchanged. -/
theorem c9_unknown_chain_is_frame_for_chain_lists :
    ∀ (s : ManagerState) (wid addr chain data : String) (vulns : List String)
      (ws : ChainWorkspace) (s1 : ManagerState),
      loadWorkspace s wid = (some ws, s1) →
      getA ws.chains chain = none →
      (∃ s2, addContract s wid addr chain data = .ok s2 ∧
        ∃ ws2, getA s2.mem wid = some ws2 ∧ ws2.chains = ws.chains ∧
          (getA ws2.contracts addr).bind (fun inner => getA inner chain) =
            some { address := addr, chain := chain, addedAt := s1.clock, data := data })
      ∧ (∃ s2, addVulnerabilities s wid addr chain vulns = .ok s2 ∧
        ∃ ws2, getA s2.mem wid = some ws2 ∧ ws2.chains = ws.chains ∧
          getA ws2.vulnerabilities (addr ++ ":" ++ chain) = some vulns) := by
  intro s wid addr chain data vulns ws s1 h1 h2
  constructor
  · refine ⟨_, by simp only [addContract, h1, h2]; rfl, ?_⟩
    refine ⟨_, getA_setA_self _ _ _, rfl, ?_⟩
    simp only [getA_setA_self, Option.bind_some]
    exact getA_setA_self _ _ _
  · refine ⟨_, by simp only [addVulnerabilities, h1, h2]; rfl, ?_⟩
    exact ⟨_, getA_setA_self _ _ _, rfl, getA_setA_self _ _ _⟩

/-- C9 witness: the theorem evaluated on the concrete state `wsCreated`
with the unsupported chain `solana`. -/
theorem c9_unknown_chain_is_frame_for_chain_lists_witness :
    (∃ s2, addContract wsCreated "w1" "0xCC" "solana" "meta" = .ok s2 ∧
      ∃ ws2, getA s2.mem "w1" = some ws2 ∧ ws2.chains = c6LoadedWs.chains ∧
        (getA ws2.contracts "0xCC").bind (fun inner => getA inner "solana") =
          some { address := "0xCC", chain := "solana", addedAt := wsCreated.clock,
                 data := "meta" })
    ∧ (∃ s2, addVulnerabilities wsCreated "w1" "0xCC" "solana" ["v9"] = .ok s2 ∧
      ∃ ws2, getA s2.mem "w1" = some ws2 ∧ ws2.chains = c6LoadedWs.chains ∧
        getA ws2.vulnerabilities ("0xCC" ++ ":" ++ "solana") = some ["v9"]) :=
  c9_unknown_chain_is_frame_for_chain_lists wsCreated "w1" "0xCC" "solana" "meta"
    ["v9"] c6LoadedWs wsCreated (by decide) (by decide)

/-- C10.  `saveWorkspace` serializes and writes the document before
stamping `updatedAt`, so for every mutating operation the persisted
document carries the pre-save `updatedAt` — for the add operations,
exactly the workspace's `updatedAt` from before the call — and strictly
lags the in-memory `updatedAt` until the next save; `createWorkspace`
likewise persists an `updatedAt` strictly older than the in-memory
one. -/
theorem c10_persisted_updatedAt_lags_memory :
    (∀ (s : ManagerState) (wid : String) (ws : ChainWorkspace) (s1 : ManagerState),
      loadWorkspace s wid = (some ws, s1) →
      ws.updatedAt < s1.clock →
      (∀ addr chain data, ∃ s2, addContract s wid addr chain data = .ok s2 ∧
        ∃ d m, getA s2.disk wid = some d ∧ getA s2.mem wid = some m ∧
          d.updatedAt = ws.updatedAt ∧ d.updatedAt < m.updatedAt)
      ∧ (∀ addr chain vulns, ∃ s2, addVulnerabilities s wid addr chain vulns = .ok s2 ∧
        ∃ d m, getA s2.disk wid = some d ∧ getA s2.mem wid = some m ∧
          d.updatedAt = ws.updatedAt ∧ d.updatedAt < m.updatedAt)
      ∧ (∀ addr chain report, ∃ s2, addReport s wid addr chain report = .ok s2 ∧
        ∃ d m, getA s2.disk wid = some d ∧ getA s2.mem wid = some m ∧
          d.updatedAt = ws.updatedAt ∧ d.updatedAt < m.updatedAt))
    ∧ (∀ (s : ManagerState) (id : String) (chains : List String),
        ∃ d m, getA (createWorkspace s id chains).1.disk id = some d ∧
          getA (createWorkspace s id chains).1.mem id = some m ∧
          d.updatedAt < m.updatedAt) := by
  constructor
  · intro s wid ws s1 h1 hlt
    refine ⟨?_, ?_, ?_⟩
    · intro addr chain data
      refine ⟨_, by simp only [addContract, h1]; rfl, ?_⟩
      exact ⟨_, _, getA_setA_self _ _ _, getA_setA_self _ _ _, rfl, by
        simpa using Nat.lt_succ_of_lt hlt⟩
    · intro addr chain vulns
      refine ⟨_, by simp only [addVulnerabilities, h1]; rfl, ?_⟩
      exact ⟨_, _, getA_setA_self _ _ _, getA_setA_self _ _ _, rfl, hlt⟩
    · intro addr chain report
      refine ⟨_, by simp only [addReport, h1]; rfl, ?_⟩
      exact ⟨_, _, getA_setA_self _ _ _, getA_setA_self _ _ _, rfl, hlt⟩
  · intro s id chains
    exact ⟨_, _, getA_setA_self _ _ _, getA_setA_self _ _ _, Nat.lt_succ_self _⟩

/-- C10 witness: the add-operation part evaluated on the concrete state
`wsCreated` (stored `updatedAt = 2`, clock `3`). -/
theorem c10_persisted_updatedAt_lags_memory_witness :
    ∃ s2, addReport wsCreated "w1" "0xCC" "ethereum" "body" = .ok s2 ∧
      ∃ d m, getA s2.disk "w1" = some d ∧ getA s2.mem "w1" = some m ∧
        d.updatedAt = c6LoadedWs.updatedAt ∧ d.updatedAt < m.updatedAt :=
  ((c10_persisted_updatedAt_lags_memory.1 wsCreated "w1" c6LoadedWs wsCreated
      (by decide) (by decide)).2.2) "0xCC" "ethereum" "body"

/-- C7 counterexample.  `createWorkspace` on an id with existing
persisted state does not fail: after creating `w1` and adding a
contract (the stored workspace then has one contract entry), calling
`createWorkspace` again on `w1` succeeds and replaces the stored state
with a fresh empty workspace — the contract map and the ethereum
chain's contract list are empty again. -/
theorem c7_recreate_overwrites_existing_workspace :
    (((addContract wsCreated "w1" "0xCC" "ethereum" "meta").toOption.bind
          (fun s2 => getA s2.mem "w1")).map (fun ws => ws.contracts.length) = some 1)
    ∧ (((addContract wsCreated "w1" "0xCC" "ethereum" "meta").toOption.bind
          (fun s2 => getA (createWorkspace s2 "w1" ["ethereum"]).1.mem "w1")).map
        (fun ws => ws.contracts.length) = some 0)
    ∧ ((((addContract wsCreated "w1" "0xCC" "ethereum" "meta").toOption.bind
          (fun s2 => getA (createWorkspace s2 "w1" ["ethereum"]).1.mem "w1")).bind
        (fun ws => getA ws.chains "ethereum")).map (fun c => c.contracts.length) = some 0) := by
  refine ⟨by decide, by decide, by decide⟩

/-- C4 counterexample.  A conflict group in which the globally
highest-weighted source (`ai`) is absent — slither and mythril disagree
at one key — is NOT resolved with `confidenceTier = high` and
`confidenceScore = 100`: the group's first finding is returned
unchanged, keeping its raw `low` tier and raw score `5`. -/
theorem c4_conflict_without_ai_not_forced_high :
    (combineResults conflictInput).vulnerabilities.map
        (fun v => (v.confidence, v.confidenceScore)) =
      [(some ConfTier.low, JSNum.num 5)]
    ∧ ∀ v ∈ (combineResults conflictInput).vulnerabilities,
        ¬(v.confidence = some ConfTier.high ∧ v.confidenceScore = JSNum.num 100) := by
  exact ⟨by decide, by decide⟩

/-- C4 amended.  The tool `resolveConflict` trusts is the globally
highest-weighted configured source (`ai`), chosen independently of the
group: when some member of the group carries the `ai` tag the selected
finding is forced to `confidenceTier = high` and
`confidenceScore = 100`; when no member does, the group's first finding
is returned entirely unchanged (no tier or score override). -/
theorem c4_amended_resolveConflict_behaviour (fs : List Consensus.Vulnerability)
    (h : fs ≠ []) :
    maxTool = "ai"
    ∧ ∃ out, resolveConflict fs = some out ∧
        (if fs.any (fun f => f.tools.contains "ai") then
          out.confidence = some ConfTier.high ∧ out.confidenceScore = JSNum.num 100
        else fs.head? = some out) := by
  have hm : maxTool = "ai" := by decide
  refine ⟨hm, ?_⟩
  rw [resolveConflict, hm]
  cases hf : fs.find? (fun f => f.tools.contains "ai") with
  | none =>
    have hany : fs.any (fun f => f.tools.contains "ai") = false := by
      rw [List.any_eq_false]
      intro x hx
      simpa using List.find?_eq_none.mp hf x hx
    cases fs with
    | nil => exact absurd rfl h
    | cons a t => exact ⟨a, rfl, by rw [hany]; simp⟩
  | some tf =>
    have hmem := List.mem_of_find?_eq_some hf
    have hp := List.find?_some hf
    have hany : fs.any (fun f => f.tools.contains "ai") = true :=
      List.any_eq_true.mpr ⟨tf, hmem, hp⟩
    exact ⟨_, rfl, by rw [hany]; simp⟩

/-- C4 witness: the amended theorem evaluated on a concrete
one-element conflict group without the `ai` tag. -/
theorem c4_amended_resolveConflict_behaviour_witness :
    maxTool = "ai"
    ∧ ∃ out, resolveConflict [conflictMember] = some out ∧
        (if [conflictMember].any (fun f => f.tools.contains "ai") then
          out.confidence = some ConfTier.high ∧ out.confidenceScore = JSNum.num 100
        else [conflictMember].head? = some out) :=
  c4_amended_resolveConflict_behaviour [conflictMember] (by decide)

theorem adjustConfidence_severity (v : Vulnerability) :
    (adjustConfidence v).severity = v.severity := rfl

theorem adjustConfidence_location (v : Vulnerability) :
    (adjustConfidence v).location = v.location := rfl

theorem adjustConfidence_description (v : Vulnerability) :
    (adjustConfidence v).description = v.description := rfl

theorem adjustConfidence_tools (v : Vulnerability) :
    (adjustConfidence v).tools = v.tools := rfl

/-- `adjustConfidence` never lowers the tier: if the result is `low` the
input already was `low`. -/
theorem adjustConfidence_conf_low (v : Vulnerability)
    (h : (adjustConfidence v).confidence = some ConfTier.low) :
    v.confidence = some ConfTier.low := by
  obtain ⟨i, t, sev, d, loc, tools, conf, score, rec⟩ := v
  unfold adjustConfidence at h
  dsimp only at h
  cases conf with
  | none => split_ifs at h <;> simp_all
  | some c =>
    cases c with
    | high => split_ifs at h <;> simp_all
    | medium => split_ifs at h <;> simp_all
    | low => rfl

/-- `reduceFalsePositives` in filter/map form. -/
theorem reduceFalsePositives_eq (l : List Vulnerability) :
    reduceFalsePositives l =
      (l.filter (fun v => !isLikelyFalsePositive v)).map adjustConfidence := by
  suffices haux : ∀ acc,
      l.foldl
          (fun filtered v =>
            if isLikelyFalsePositive v then filtered else filtered ++ [adjustConfidence v])
          acc
        = acc ++ (l.filter (fun v => !isLikelyFalsePositive v)).map adjustConfidence by
    simpa [reduceFalsePositives] using haux []
  induction l with
  | nil => simp
  | cons a t ih =>
    intro acc
    by_cases ha : isLikelyFalsePositive a
    · simp [List.foldl_cons, ha, ih]
    · simp [List.foldl_cons, ha, ih]

/-- A survivor of the false-positive filter still passes the filter
after `adjustConfidence`: the filter only reads fields the adjustment
never degrades. -/
theorem isLikelyFalsePositive_adjust (v : Vulnerability)
    (h : isLikelyFalsePositive v = false) :
    isLikelyFalsePositive (adjustConfidence v) = false := by
  have h' := h
  unfold isLikelyFalsePositive at h'
  simp only [Bool.or_eq_false_iff] at h'
  obtain ⟨⟨⟨h1, hB⟩, hC⟩, h4⟩ := h'
  unfold isLikelyFalsePositive
  rw [adjustConfidence_severity, adjustConfidence_location, adjustConfidence_description,
      adjustConfidence_tools]
  cases hadj : ((adjustConfidence v).confidence == some ConfTier.low) with
  | false => simp [hadj, hB.1, hB.2, hC.1, hC.2]
  | true =>
    have hveq : v.confidence = some ConfTier.low :=
      adjustConfidence_conf_low v (eq_of_beq hadj)
    simp only [hveq] at h1 h4
    simp [hadj, h1, hB.1, hB.2, hC.1, hC.2, h4] at *
    simp [h1, h4]

/-- C8 counterexample.  `reduceFalsePositives` is not idempotent: on the
single critical finding `boostable` (score 20, tier medium) one
application boosts the score to 40, a second application boosts it again
to 60, so applying it twice differs from applying it once. -/
theorem c8_reduceFalsePositives_not_idempotent :
    reduceFalsePositives (reduceFalsePositives [boostable]) ≠
      reduceFalsePositives [boostable]
    ∧ (reduceFalsePositives [boostable]).map (fun v => v.confidenceScore) =
        [JSNum.num 40]
    ∧ (reduceFalsePositives (reduceFalsePositives [boostable])).map
        (fun v => v.confidenceScore) = [JSNum.num 60] := by
  exact ⟨by decide, by decide, by decide⟩

/-- C8 amended.  A second application of `reduceFalsePositives` never
drops a finding — every output of the first pass still passes the
false-positive filter — but it does re-apply the confidence adjustment:
`reduceFalsePositives ∘ reduceFalsePositives` equals mapping
`adjustConfidence` over a single pass (which is why full idempotence
fails for findings the adjustment keeps boosting). -/
theorem c8_amended_second_pass_only_adjusts (l : List Vulnerability) :
    reduceFalsePositives (reduceFalsePositives l) =
      (reduceFalsePositives l).map adjustConfidence := by
  rw [reduceFalsePositives_eq (reduceFalsePositives l)]
  congr 1
  rw [List.filter_eq_self]
  intro a ha
  rw [reduceFalsePositives_eq] at ha
  obtain ⟨w, hw, rfl⟩ := List.mem_map.mp ha
  have hwf : isLikelyFalsePositive w = false := by
    have := (List.mem_filter.mp hw).2
    simpa using this
  simp [isLikelyFalsePositive_adjust w hwf]

/-- C7 amended.  `createWorkspace(id, chains)` never signals
`AlreadyExists`: for every prior state it unconditionally succeeds,
stores a fresh empty workspace document at `id` (chains initialised for
every supported chain), and overwrites whatever was stored there. -/
theorem c7_amended_create_always_fresh (s : ManagerState) (workspaceId : String)
    (chains : List String) :
    getA (createWorkspace s workspaceId chains).1.mem workspaceId =
        some (createWorkspace s workspaceId chains).2
    ∧ (createWorkspace s workspaceId chains).2.contracts = []
    ∧ (createWorkspace s workspaceId chains).2.vulnerabilities = []
    ∧ (createWorkspace s workspaceId chains).2.reports = []
    ∧ (createWorkspace s workspaceId chains).2.chains =
        supportedChains.map (fun c => (c, emptyChainState)) := by
  refine ⟨?_, rfl, rfl, rfl, rfl⟩
  simp [createWorkspace, saveWorkspace, getA_setA_self]
